import Mathlib

/-!
Verification of the solarpredictor backend against its specification.

The Python sources are shallowly embedded: machine floats become exact
rationals `ℚ`, Python dicts become association lists, mutable heap objects
become an explicit heap (a list of payload values addressed by index), and
fallible operations return `Option`/`Except`.  Each definition is translated
from the function it names in the source tree (file/line references in the
doc comments).
-/

namespace SolarPredictor

/-! ### Rounding

Python's built-in `round(x, n)` rounds half to even (banker's rounding).
It is used by `_round_coord` (backend/api/views.py:43), `_estimate_pv_power_kw`
(views.py:165) and `_summarize_daily_energy` (views.py:184). -/

/-- Python's `round` to an integer: round half to even. -/
def bankersRound (q : ℚ) : ℤ :=
  let f : ℤ := ⌊q⌋
  if q - f < 1/2 then f
  else if 1/2 < q - f then f + 1
  else if f % 2 = 0 then f else f + 1

/-- Python's `round(q, p)`: round to `p` decimal places, half to even. -/
def roundDec (p : ℕ) (q : ℚ) : ℚ :=
  (bankersRound (q * 10 ^ p) : ℚ) / 10 ^ p

/-- `_round_coord` (views.py:43-44): `round(value, 4)`. -/
def round_coord (value : ℚ) : ℚ := roundDec 4 value

/-- `_solcast_cache_key` (views.py:47-48): the key is the pair of rounded
coordinates.  (The source renders the pair as the string
`f"{r(lat)}:{r(lon)}"`; that rendering is injective on rounded pairs, so the
pair itself is the faithful key.) -/
def solcast_cache_key (lat lon : ℚ) : ℚ × ℚ :=
  (round_coord lat, round_coord lon)

theorem bankersRound_intCast (n : ℤ) : bankersRound (n : ℚ) = n := by
  unfold bankersRound
  simp only [Int.floor_intCast, sub_self]
  norm_num

theorem roundDec_idem (p : ℕ) (q : ℚ) :
    roundDec p (roundDec p q) = roundDec p q := by
  unfold roundDec
  have hp : (10 : ℚ) ^ p ≠ 0 := by positivity
  rw [div_mul_cancel₀ _ hp, bankersRound_intCast]

/-! ### Coordinate range validation

`SolarForecastProxy.get` (views.py:329-352): after parsing, the latitude must
lie in `[-90, 90]` and the longitude in `[-180, 180]`; otherwise the request
is answered with HTTP 400.  Both rejection branches are 400-class. -/

/-- Outcome of the coordinate range check in `SolarForecastProxy.get`:
the two `badRequest`-style rejections (both HTTP 400) or passing on to the
API-key check. -/
inductive CoordCheck where
  | latOutOfRange
  | lonOutOfRange
  | pass
deriving DecidableEq

/-- The range-validation prefix of `SolarForecastProxy.get`
(views.py:329-352). -/
def coord_range_check (lat lon : ℚ) : CoordCheck :=
  if ¬ (-90 ≤ lat ∧ lat ≤ 90) then .latOutOfRange
  else if ¬ (-180 ≤ lon ∧ lon ≤ 180) then .lonOutOfRange
  else .pass

/-! ### Claims C6 and C8 -/

/-- C6 (amended): rounding to 4 decimals is idempotent; two coordinate pairs
produce equal cache keys precisely when their componentwise 4-decimal
roundings coincide (closeness below 0.00005° alone does not force a
collision); in particular the spec's concrete nearby pair
(37.7749, -122.4194) and (37.77491, -122.41941) does collide. -/
theorem c6_round_idempotent_and_key_collision :
    (∀ x : ℚ, round_coord (round_coord x) = round_coord x) ∧
    (∀ lat₁ lon₁ lat₂ lon₂ : ℚ,
      solcast_cache_key lat₁ lon₁ = solcast_cache_key lat₂ lon₂ ↔
        round_coord lat₁ = round_coord lat₂ ∧ round_coord lon₁ = round_coord lon₂) ∧
    solcast_cache_key (37.7749 : ℚ) (-122.4194 : ℚ) =
      solcast_cache_key (37.77491 : ℚ) (-122.41941 : ℚ) := by
  refine ⟨fun x => roundDec_idem 4 x, fun lat₁ lon₁ lat₂ lon₂ => ?_,
    by norm_num [solcast_cache_key, round_coord, roundDec, bankersRound]⟩
  constructor
  · intro h
    exact ⟨congrArg Prod.fst h, congrArg Prod.snd h⟩
  · rintro ⟨h₁, h₂⟩
    simp [solcast_cache_key, h₁, h₂]

/-- C6 counterexample: the latitudes 0.00004 and 0.00006 differ by
0.00002 < 0.00005 (and the longitudes, both 0, differ by 0 < 0.00005),
yet their cache keys differ, refuting "keys for coordinates differing by
less than 0.00005° always collide". -/
theorem c6_collision_counterexample :
    |(0.00004 : ℚ) - 0.00006| < 0.00005 ∧ |(0 : ℚ) - 0| < 0.00005 ∧
    solcast_cache_key (0.00004 : ℚ) 0 ≠ solcast_cache_key (0.00006 : ℚ) 0 := by
  refine ⟨by norm_num [abs], by norm_num,
    by norm_num [solcast_cache_key, round_coord, roundDec, bankersRound, Prod.ext_iff]⟩

/-- C6 witness: concrete instances of the amended theorem — idempotence at
1.23456, and a forced collision for 0.00001 vs 0.00002 (equal roundings). -/
theorem c6_witness :
    round_coord (round_coord (1.23456 : ℚ)) = round_coord (1.23456 : ℚ) ∧
    solcast_cache_key (0.00001 : ℚ) 0 = solcast_cache_key (0.00002 : ℚ) 0 := by
  refine ⟨c6_round_idempotent_and_key_collision.1 _, ?_⟩
  exact (c6_round_idempotent_and_key_collision.2.1 _ _ _ _).2
    ⟨by norm_num [round_coord, roundDec, bankersRound],
     by norm_num [round_coord, roundDec, bankersRound]⟩

/-- C8: any latitude outside [-90, 90] or longitude outside [-180, 180] is
rejected by a 400-class branch (in particular lat = 91 and lon = 181), while
the boundary values -90, 90, -180, 180 pass the range check. -/
theorem c8_coord_validation :
    (coord_range_check 91 0 = .latOutOfRange) ∧
    (coord_range_check 0 181 = .lonOutOfRange) ∧
    (∀ lat lon : ℚ, (lat < -90 ∨ 90 < lat ∨ lon < -180 ∨ 180 < lon) →
      coord_range_check lat lon ≠ .pass) ∧
    (∀ lon : ℚ, -180 ≤ lon → lon ≤ 180 →
      coord_range_check (-90) lon = .pass ∧ coord_range_check 90 lon = .pass) ∧
    (∀ lat : ℚ, -90 ≤ lat → lat ≤ 90 →
      coord_range_check lat (-180) = .pass ∧ coord_range_check lat 180 = .pass) := by
  refine ⟨by decide, by decide, ?_, ?_, ?_⟩
  · intro lat lon h
    unfold coord_range_check
    rcases h with h | h | h | h <;>
      · split_ifs with h₁ h₂ <;> simp_all <;> linarith
  · intro lon h₁ h₂
    constructor <;> · unfold coord_range_check; rw [if_neg, if_neg] <;> simp <;> norm_num [h₁, h₂]
  · intro lat h₁ h₂
    constructor <;> · unfold coord_range_check; rw [if_neg, if_neg] <;> simp <;> norm_num [h₁, h₂]

/-- C8 witness: the theorem applied at lat 100 (out of range, rejected) and at
the boundary corner (-90, 180) (accepted). -/
theorem c8_witness :
    coord_range_check 100 0 ≠ .pass ∧ coord_range_check (-90) 180 = .pass := by
  refine ⟨c8_coord_validation.2.2.1 100 0 ?_, (c8_coord_validation.2.2.2.1 180 ?_ ?_).1⟩
  · right; left; norm_num
  · norm_num
  · norm_num

/-! ### Forecast cache (views.py:37-74 and the endpoint paths views.py:366-400)

Python objects (the cached forecast payload dicts) are modeled as values in an
explicit heap: an address is an index into a list of payload values, object
mutation is `heapSet`, and `copy.deepcopy` allocates a fresh address holding
the same value.  The module-level `_solcast_cache` dict keyed by
`_solcast_cache_key` strings becomes an association list keyed by the rounded
coordinate pair; `cached['expires_at'] > time.time()` and
`if not SOLCAST_CACHE_TTL` (Python falsiness: the number 0) are kept. -/

/-- Contents of a forecast payload object (the JSON structure is irrelevant to
the cache, only value identity vs reference identity matters). -/
abbrev Payload := List ℚ

/-- The heap of payload objects; an address is an index, allocation appends. -/
abbrev Heap := List Payload

def heapGet (h : Heap) (r : ℕ) : Payload := h.getD r []

def heapSet (h : Heap) (r : ℕ) (v : Payload) : Heap := h.set r v

/-- `copy.deepcopy`: allocate a fresh object with the same value. -/
def deepcopy (h : Heap) (r : ℕ) : Heap × ℕ := (h ++ [heapGet h r], h.length)

/-- A `_solcast_cache` entry `{'data': ..., 'expires_at': ...}`
(views.py:71-74); `data` is a reference to a payload object. -/
structure CacheEntry where
  dataRef : ℕ
  expires_at : ℚ
deriving DecidableEq

abbrev SolcastCache := List ((ℚ × ℚ) × CacheEntry)

/-- `_solcast_cache.get(key)`. -/
def cacheFind (c : SolcastCache) (k : ℚ × ℚ) : Option CacheEntry :=
  (c.find? fun p => decide (p.1 = k)).map (·.2)

/-- `_solcast_cache.pop(key, None)`: drop the binding for `k`. -/
def cachePop (c : SolcastCache) (k : ℚ × ℚ) : SolcastCache :=
  c.filter fun p => decide (¬ p.1 = k)

/-- `_solcast_cache[key] = entry`: overwrite the binding for `k`. -/
def cacheInsert (c : SolcastCache) (k : ℚ × ℚ) (e : CacheEntry) : SolcastCache :=
  cachePop c k ++ [(k, e)]

/-- `_get_cached_forecast` (views.py:51-63).  Returns the lookup result and
the cache map afterwards (the Python function mutates `_solcast_cache` in
place when it evicts an expired entry). -/
def get_cached_forecast (ttl now : ℚ) (c : SolcastCache) (lat lon : ℚ) :
    Option CacheEntry × SolcastCache :=
  if ttl = 0 then (none, c)
  else
    let key := solcast_cache_key lat lon
    match cacheFind c key with
    | some e =>
        if now < e.expires_at then (some e, c)
        else (none, cachePop c key)
    | none => (none, c)

/-- `_store_forecast_in_cache` (views.py:66-74). -/
def store_forecast_in_cache (ttl now : ℚ) (c : SolcastCache) (lat lon : ℚ)
    (dataRef : ℕ) : SolcastCache :=
  if ttl = 0 then c
  else cacheInsert c (solcast_cache_key lat lon) ⟨dataRef, now + ttl⟩

/-- The endpoint's store path (views.py:395): the freshly built payload is
deep-copied before being handed to `_store_forecast_in_cache`. -/
def forecast_store_fresh (ttl now : ℚ) (h : Heap) (c : SolcastCache)
    (lat lon : ℚ) (payloadRef : ℕ) : Heap × SolcastCache :=
  let copied := deepcopy h payloadRef
  (copied.1, store_forecast_in_cache ttl now c lat lon copied.2)

/-- The endpoint's cache-hit path (views.py:371): the cached `data` object is
deep-copied before being returned to the client. -/
def forecast_cache_hit_payload (h : Heap) (e : CacheEntry) : Heap × ℕ :=
  deepcopy h e.dataRef

theorem heapGet_append_self (h : Heap) (v : Payload) :
    heapGet (h ++ [v]) h.length = v := by
  induction h with
  | nil => rfl
  | cons a t ih => simpa [heapGet, List.getD] using ih

theorem heapGet_append_ne (h : Heap) (v : Payload) (r : ℕ) (hr : r ≠ h.length) :
    heapGet (h ++ [v]) r = heapGet h r := by
  induction h generalizing r with
  | nil =>
      cases r with
      | zero => exact absurd rfl hr
      | succ n => simp [heapGet, List.getD]
  | cons a t ih =>
      cases r with
      | zero => rfl
      | succ n =>
          have : n ≠ t.length := fun hn => hr (by simp [hn])
          simpa [heapGet, List.getD] using ih n this

theorem heapGet_set_ne (h : Heap) (r r' : ℕ) (v : Payload) (hne : r' ≠ r) :
    heapGet (heapSet h r v) r' = heapGet h r' := by
  induction h generalizing r r' with
  | nil => rfl
  | cons a t ih =>
      cases r with
      | zero =>
          cases r' with
          | zero => exact absurd rfl hne
          | succ m => rfl
      | succ n =>
          cases r' with
          | zero => rfl
          | succ m =>
              have : m ≠ n := fun hm => hne (by simp [hm])
              simpa [heapGet, heapSet, List.getD] using ih n m this

theorem cacheFind_pop (c : SolcastCache) (k : ℚ × ℚ) :
    cacheFind (cachePop c k) k = none := by
  induction c with
  | nil => rfl
  | cons p t ih =>
      by_cases hp : p.1 = k
      · simpa [cacheFind, cachePop, hp] using ih
      · simpa [cacheFind, cachePop, hp] using ih

theorem cacheFind_insert_self (c : SolcastCache) (k : ℚ × ℚ) (e : CacheEntry) :
    cacheFind (cacheInsert c k e) k = some e := by
  unfold cacheInsert
  induction c with
  | nil => simp [cacheFind, cachePop]
  | cons p t ih =>
      by_cases hp : p.1 = k
      · simpa [cacheFind, cachePop, hp] using ih
      · simpa [cacheFind, cachePop, hp] using ih

/-- C1: with a positive TTL, (i) a lookup returns a present entry exactly when
`now < expires_at`; a present-but-expired entry is evicted (and is gone from
the map afterwards) with `none` returned; an absent key returns `none` and
leaves the map alone; (ii) a store followed by a lookup before the TTL
elapses finds the entry, the client payload (deep copy) is value-equal to the
originally stored payload, it lives at a different address than the cached
copy, and mutating it leaves the cached copy's value unchanged. -/
theorem c1_cache_semantics (ttl : ℚ) (httl : 0 < ttl) :
    (∀ (c : SolcastCache) (now lat lon : ℚ) (e : CacheEntry),
      cacheFind c (solcast_cache_key lat lon) = some e →
        (now < e.expires_at →
          get_cached_forecast ttl now c lat lon = (some e, c)) ∧
        (e.expires_at ≤ now →
          get_cached_forecast ttl now c lat lon =
            (none, cachePop c (solcast_cache_key lat lon)) ∧
          cacheFind (get_cached_forecast ttl now c lat lon).2
            (solcast_cache_key lat lon) = none)) ∧
    (∀ (c : SolcastCache) (now lat lon : ℚ),
      cacheFind c (solcast_cache_key lat lon) = none →
        get_cached_forecast ttl now c lat lon = (none, c)) ∧
    (∀ (h : Heap) (c : SolcastCache) (now now' lat lon : ℚ) (p : ℕ),
      now' < now + ttl →
      (get_cached_forecast ttl now'
          (forecast_store_fresh ttl now h c lat lon p).2 lat lon).1 =
        some ⟨h.length, now + ttl⟩ ∧
      heapGet
          (forecast_cache_hit_payload
            (forecast_store_fresh ttl now h c lat lon p).1
            ⟨h.length, now + ttl⟩).1
          (forecast_cache_hit_payload
            (forecast_store_fresh ttl now h c lat lon p).1
            ⟨h.length, now + ttl⟩).2 = heapGet h p ∧
      (forecast_cache_hit_payload
          (forecast_store_fresh ttl now h c lat lon p).1
          ⟨h.length, now + ttl⟩).2 ≠ h.length ∧
      (∀ v : Payload,
        heapGet
          (heapSet
            (forecast_cache_hit_payload
              (forecast_store_fresh ttl now h c lat lon p).1
              ⟨h.length, now + ttl⟩).1
            (forecast_cache_hit_payload
              (forecast_store_fresh ttl now h c lat lon p).1
              ⟨h.length, now + ttl⟩).2 v)
          h.length = heapGet h p)) := by
  have hne : ttl ≠ 0 := ne_of_gt httl
  refine ⟨?_, ?_, ?_⟩
  · intro c now lat lon e hfind
    constructor
    · intro hlive
      simp [get_cached_forecast, hne, hfind, hlive]
    · intro hexp
      have hnot : ¬ now < e.expires_at := not_lt.mpr hexp
      refine ⟨by simp [get_cached_forecast, hne, hfind, hnot], ?_⟩
      simp only [get_cached_forecast, hne, if_false, hfind, hnot]
      simpa [hne, hfind, hnot] using cacheFind_pop c (solcast_cache_key lat lon)
  · intro c now lat lon hfind
    simp [get_cached_forecast, hne, hfind]
  · intro h c now now' lat lon p hfresh
    have hstore :
        (forecast_store_fresh ttl now h c lat lon p).2 =
          cacheInsert c (solcast_cache_key lat lon) ⟨h.length, now + ttl⟩ := by
      simp [forecast_store_fresh, deepcopy, store_forecast_in_cache, hne]
    have hheap :
        (forecast_store_fresh ttl now h c lat lon p).1 = h ++ [heapGet h p] := by
      simp [forecast_store_fresh, deepcopy]
    have hfind := cacheFind_insert_self c (solcast_cache_key lat lon)
      (⟨h.length, now + ttl⟩ : CacheEntry)
    refine ⟨?_, ?_, ?_, ?_⟩
    · rw [hstore]
      simp [get_cached_forecast, hne, hfind, hfresh]
    · rw [hheap]
      simp only [forecast_cache_hit_payload, deepcopy]
      rw [heapGet_append_self, heapGet_append_self]
    · rw [hheap]
      simp only [forecast_cache_hit_payload, deepcopy]
      simp
    · intro v
      rw [hheap]
      simp only [forecast_cache_hit_payload, deepcopy]
      rw [heapGet_set_ne _ _ _ _ (by simp), heapGet_append_ne _ _ _ (by simp),
        heapGet_append_self]

/-- C1 witness: TTL 10, a cached live entry at the key for (0, 0) is returned
unchanged at time 3 with the map untouched. -/
theorem c1_witness :
    get_cached_forecast 10 3 [((0, 0), ⟨0, 7⟩)] 0 0 =
      (some ⟨0, 7⟩, [((0, 0), ⟨0, 7⟩)]) := by
  have hk : solcast_cache_key 0 0 = ((0 : ℚ), (0 : ℚ)) := by
    norm_num [solcast_cache_key, round_coord, roundDec, bankersRound]
  have hfind : cacheFind [((0, 0), ⟨0, 7⟩)] (solcast_cache_key 0 0) =
      some ⟨0, 7⟩ := by
    rw [hk]; rfl
  exact ((c1_cache_semantics 10 (by norm_num)).1
    [((0, 0), ⟨0, 7⟩)] 3 0 0 ⟨0, 7⟩ hfind).1 (by norm_num)

/-! ### Geocode search proxy

`GeocodeSearchProxy.get` (views.py:468-482) strips the raw `q` parameter,
rejects an empty or shorter-than-3-character result with HTTP 400, and
otherwise calls `_search_locations` (views.py:134-157), which swallows every
provider/parse failure and returns `[]`.  The network call is a parameter:
`Except Unit items` is a successful provider response carrying its items, or
any failure (non-2xx, network error, malformed body). -/

/-- Python `str.isspace` characters stripped by `str.strip()`. -/
def pySpace (ch : Char) : Bool :=
  ch == ' ' || ch == '\t' || ch == '\n' || ch == '\r' || ch == '\x0b' || ch == '\x0c'

/-- Python `str.strip()`: drop leading and trailing whitespace. -/
def pyStrip (s : String) : String :=
  String.mk (((s.toList.dropWhile pySpace).reverse.dropWhile pySpace).reverse)

/-- One element of the Nominatim search response.  `lat`/`lon` hold the value
`float(item.get('lat'))` would produce, or `none` when that call would raise
(field absent or non-numeric). -/
structure NominatimItem where
  display_name : Option String
  lat : Option ℚ
  lon : Option ℚ
  city : Option String
  town : Option String
  village : Option String
  country : Option String

/-- One entry of the proxy's `results` list (views.py:148-154). -/
structure LocationResult where
  display_name : Option String
  lat : ℚ
  lon : ℚ
  city : Option String
  country : Option String
deriving DecidableEq

/-- Python `a or b` on optional strings: `None` and `""` are falsy. -/
def pyOrStr (a b : Option String) : Option String :=
  match a with
  | some s => if s = "" then b else some s
  | none => b

/-- The per-item conversion inside `_search_locations`; `none` when
`float(...)` raises. -/
def convertItem (item : NominatimItem) : Option LocationResult :=
  match item.lat, item.lon with
  | some la, some lo =>
      some ⟨item.display_name, la, lo,
        pyOrStr item.city (pyOrStr item.town item.village), item.country⟩
  | _, _ => none

/-- `_search_locations` (views.py:134-157): every exception — provider
failure or a conversion failure mid-loop — is caught and `[]` returned. -/
def search_locations (provider : Except Unit (List NominatimItem)) :
    List LocationResult :=
  match provider with
  | .error _ => []
  | .ok items =>
      match items.mapM convertItem with
      | some rs => rs
      | none => []

/-- Outcome of `GeocodeSearchProxy.get`: the 400 validation response, or a
200 with a `results` list. -/
inductive GeocodeResponse where
  | badRequest
  | ok (results : List LocationResult)
deriving DecidableEq

/-- `GeocodeSearchProxy.get` (views.py:468-482). -/
def geocode_search_get (provider : Except Unit (List NominatimItem))
    (q : String) : GeocodeResponse :=
  let query := pyStrip q
  if query = "" ∨ query.length < 3 then .badRequest
  else .ok (search_locations provider)

theorem pyStrip_length_le (s : String) : (pyStrip s).length ≤ s.length := by
  have h₁ : ∀ (p : Char → Bool) (l : List Char),
      (l.dropWhile p).length ≤ l.length := by
    intro p l
    induction l with
    | nil => simp
    | cons a t ih =>
        by_cases hp : p a
        · simp only [List.dropWhile_cons, hp]
          exact le_trans ih (Nat.le_succ _)
        · simp [List.dropWhile_cons, hp]
  calc (pyStrip s).length
      = (((s.toList.dropWhile pySpace).reverse.dropWhile pySpace).reverse).length := rfl
    _ = ((s.toList.dropWhile pySpace).reverse.dropWhile pySpace).length := by
        rw [List.length_reverse]
    _ ≤ ((s.toList.dropWhile pySpace).reverse).length := h₁ _ _
    _ = (s.toList.dropWhile pySpace).length := by rw [List.length_reverse]
    _ ≤ s.toList.length := h₁ _ _
    _ = s.length := rfl

/-- C9 (amended): a raw query shorter than 3 characters is always rejected
with the 400 validation response; a query whose whitespace-stripped form has
length at least 3 is always attempted against the provider; for such a query
any provider failure yields an empty results list (HTTP 200) rather than a
propagated error.  (Length is measured after `str.strip()`, so a length-3
query with leading/trailing whitespace is rejected.) -/
theorem c9_geocode_search :
    (∀ (provider : Except Unit (List NominatimItem)) (q : String),
      q.length < 3 → geocode_search_get provider q = .badRequest) ∧
    (∀ (provider : Except Unit (List NominatimItem)) (q : String),
      3 ≤ (pyStrip q).length →
      geocode_search_get provider q = .ok (search_locations provider)) ∧
    (∀ q : String, 3 ≤ (pyStrip q).length →
      geocode_search_get (.error ()) q = .ok []) := by
  refine ⟨?_, ?_, ?_⟩
  · intro provider q hq
    have hlt : (pyStrip q).length < 3 := lt_of_le_of_lt (pyStrip_length_le q) hq
    unfold geocode_search_get
    rw [if_pos (Or.inr hlt)]
  · intro provider q hq
    have h₁ : ¬ (pyStrip q).length < 3 := not_lt.mpr hq
    have h₂ : ¬ pyStrip q = "" := by
      intro h
      rw [h] at hq
      simp [String.length] at hq
    unfold geocode_search_get
    rw [if_neg (by push_neg; exact ⟨h₂, hq⟩)]
  · intro q hq
    have h₁ : ¬ (pyStrip q).length < 3 := not_lt.mpr hq
    have h₂ : ¬ pyStrip q = "" := by
      intro h
      rw [h] at hq
      simp [String.length] at hq
    unfold geocode_search_get
    rw [if_neg (by push_neg; exact ⟨h₂, hq⟩)]
    rfl

/-- C9 counterexample: the raw query `"ab "` has length exactly 3, yet the
endpoint rejects it with the 400 validation response (it is stripped to
`"ab"` before the length check), refuting "a query of length 3 is always
attempted against the provider". -/
theorem c9_length3_counterexample :
    ("ab " : String).length = 3 ∧
    geocode_search_get (.ok []) "ab " = .badRequest := by
  constructor
  · rfl
  · rfl

/-- C9 witness: the length-2 query "ab" is rejected, and the length-3 query
"abc" against a failing provider yields an empty result list. -/
theorem c9_witness :
    geocode_search_get (.ok []) "ab" = .badRequest ∧
    geocode_search_get (.error ()) "abc" = .ok [] := by
  exact ⟨c9_geocode_search.1 (.ok []) "ab" (by decide),
    c9_geocode_search.2.2 "abc" (by decide)⟩

/-! ### Forecast aggregation

`_estimate_pv_power_kw` (views.py:160-165), `_summarize_daily_energy`
(views.py:168-186) and `_build_forecast_payload` (views.py:215-248).
The Python dict `daily_totals` is an insertion-ordered association list;
`sorted(daily_totals.keys())` is modeled by `List.insertionSort (· ≤ ·)`
(both produce the ascending arrangement); `_reverse_geocode`, a network
call, is a parameter. -/

/-- One element of the provider's `forecasts` array (§6: fields
`period_end, ghi, air_temp, cloud_opacity`); `none` models an absent field. -/
structure ForecastEntry where
  period_end : Option String
  ghi : Option ℚ
  air_temp : Option ℚ
  cloud_opacity : Option ℚ

/-- `period_end.split('T')[0]`: the prefix before the first `'T'`. -/
def dayKeyOf (pe : String) : String :=
  String.mk (pe.toList.takeWhile (fun ch => !(ch == 'T')))

/-- The skip logic of the `_summarize_daily_energy` loop body
(views.py:170-179): `continue` on falsy `period_end` or missing `ghi`,
otherwise the day key and the ghi value. -/
def entry_day_ghi (e : ForecastEntry) : Option (String × ℚ) :=
  match e.period_end with
  | none => none
  | some pe =>
      if pe = "" then none
      else
        match e.ghi with
        | none => none
        | some g => some (dayKeyOf pe, g)

/-- `daily_totals.setdefault(day_key, 0); daily_totals[day_key] += v` on an
insertion-ordered dict. -/
def bump : List (String × ℚ) → String → ℚ → List (String × ℚ)
  | [], k, v => [(k, v)]
  | (k', v') :: rest, k, v =>
      if k' = k then (k', v' + v) :: rest else (k', v') :: bump rest k v

/-- One iteration of the `_summarize_daily_energy` loop. -/
def daily_step (m : List (String × ℚ)) (e : ForecastEntry) :
    List (String × ℚ) :=
  match entry_day_ghi e with
  | none => m
  | some dg => bump m dg.1 (dg.2 / 1000)

/-- The `daily_totals` dict after the loop (views.py:169-179). -/
def daily_totals (forecasts : List ForecastEntry) : List (String × ℚ) :=
  forecasts.foldl daily_step []

/-- `daily_totals[day]` (total lookup; 0 outside the key set, which the
source never hits because it only indexes present keys). -/
def lookv (m : List (String × ℚ)) (d : String) : ℚ :=
  match m.find? (fun p => decide (p.1 = d)) with
  | some p => p.2
  | none => 0

/-- One element of the `daily_summary` list (views.py:182-185). -/
structure DailySummaryEntry where
  date : String
  kwh_per_m2 : ℚ

/-- `_summarize_daily_energy` (views.py:168-186). -/
def summarize_daily_energy (forecasts : List ForecastEntry) (days : ℕ) :
    List DailySummaryEntry :=
  let totals := daily_totals forecasts
  ((List.insertionSort (· ≤ ·) (totals.map (·.1))).take days).map
    (fun d => ⟨d, roundDec 2 (lookv totals d)⟩)

/-- `_estimate_pv_power_kw` (views.py:160-165):
`round(ghi * 0.2 / 1000, 3)`, `None` when `ghi` is absent. -/
def estimate_pv_power_kw (e : ForecastEntry) : Option ℚ :=
  match e.ghi with
  | none => none
  | some g => some (roundDec 3 (g * (2/10) / 1000))

/-- Python truthiness of `entry.get('time')`: `None` and `""` are falsy. -/
def pyTruthyOptStr : Option String → Bool
  | none => false
  | some s => !(s == "")

/-- Reverse-geocode metadata attached to the payload (`_reverse_geocode`,
views.py:108-131 — a network call, passed in as a parameter here). -/
structure LocationMeta where
  display_name : Option String
  city : Option String
  country : Option String

/-- One element of `hourly_forecast` (views.py:220-226). -/
structure HourlyEntry where
  time : Option String
  ghi : Option ℚ
  pv_kw : Option ℚ
  air_temp : Option ℚ
  cloud_opacity : Option ℚ

/-- The response payload built by `_build_forecast_payload`
(views.py:231-248). -/
structure ForecastPayload where
  lat : ℚ
  lon : ℚ
  location : LocationMeta
  current_period_end : Option String
  current_ghi : Option ℚ
  current_air_temp : Option ℚ
  current_cloud_opacity : Option ℚ
  hourly_forecast : List HourlyEntry
  daily_summary : List DailySummaryEntry
  forecast_length : ℕ

/-- `_build_forecast_payload` (views.py:215-248).  `locationMeta` stands for
the `_reverse_geocode(lat, lon)` result and `maxHours` for
`SOLCAST_MAX_HOURS`. -/
def build_forecast_payload (locationMeta : LocationMeta) (maxHours : ℕ)
    (lat lon : ℚ) (forecasts : List ForecastEntry) : ForecastPayload :=
  let hourly := (forecasts.take 48).map (fun e =>
    ({ time := e.period_end, ghi := e.ghi, pv_kw := estimate_pv_power_kw e,
       air_temp := e.air_temp, cloud_opacity := e.cloud_opacity } : HourlyEntry))
  let current := forecasts.headD ⟨none, none, none, none⟩
  { lat := lat, lon := lon, location := locationMeta,
    current_period_end := current.period_end,
    current_ghi := current.ghi,
    current_air_temp := current.air_temp,
    current_cloud_opacity := current.cloud_opacity,
    hourly_forecast := hourly.filter (fun e => pyTruthyOptStr e.time),
    daily_summary := summarize_daily_energy forecasts 7,
    forecast_length := min forecasts.length maxHours }

/-- Specification-side daily total: the sum of `ghi / 1000` over the samples
whose period-end day key equals `d` (entries lacking `period_end` or `ghi`
skipped). -/
def day_total (forecasts : List ForecastEntry) (d : String) : ℚ :=
  (forecasts.filterMap (fun e =>
    match entry_day_ghi e with
    | some dg => if dg.1 = d then some (dg.2 / 1000) else none
    | none => none)).sum

theorem lookv_bump (m : List (String × ℚ)) (k d : String) (v : ℚ) :
    lookv (bump m k v) d = lookv m d + if d = k then v else 0 := by
  induction m with
  | nil =>
      by_cases hd : d = k
      · subst hd
        simp [bump, lookv]
      · have : ¬ k = d := fun h => hd h.symm
        simp [bump, lookv, this, hd]
  | cons p t ih =>
      obtain ⟨k', v'⟩ := p
      by_cases hk : k' = k
      · subst hk
        by_cases hd : k' = d
        · subst hd
          simp [bump, lookv, add_comm]
        · have hd' : ¬ d = k' := fun h => hd h.symm
          simp [bump, lookv, hd, hd']
      · by_cases hd : k' = d
        · subst hd
          simp [bump, hk, lookv]
        · simp only [bump, if_neg hk, lookv, List.find?_cons, decide_eq_true_eq,
            if_neg hd] at ih ⊢
          simpa [lookv, hd] using ih

theorem lookv_foldl_daily_step (forecasts : List ForecastEntry)
    (m : List (String × ℚ)) (d : String) :
    lookv (forecasts.foldl daily_step m) d = lookv m d + day_total forecasts d := by
  induction forecasts generalizing m with
  | nil => simp [day_total]
  | cons e t ih =>
      rw [List.foldl_cons, ih]
      unfold daily_step day_total
      cases hdg : entry_day_ghi e with
      | none => simp [hdg, day_total]
      | some dg =>
          rw [lookv_bump]
          by_cases hd : dg.1 = d
          · have hd' : d = dg.1 := hd.symm
            simp only [List.filterMap_cons, hdg, if_pos hd, List.sum_cons]
            rw [if_pos hd']
            ring
          · have hd' : ¬ d = dg.1 := fun h => hd h.symm
            simp only [List.filterMap_cons, hdg, if_neg hd]
            rw [if_neg hd']
            ring

theorem lookv_daily_totals (forecasts : List ForecastEntry) (d : String) :
    lookv (daily_totals forecasts) d = day_total forecasts d := by
  have h := lookv_foldl_daily_step forecasts [] d
  simpa [daily_totals, lookv] using h

/-- C5: for a non-empty provider forecast list, the built payload has at most
48 hourly entries; its daily summary has at most 7 entries, the dates are in
ascending order, and each entry's `kwh_per_m2` is the sum of `ghi/1000` over
the samples whose period-end day equals that date (entries lacking
`period_end` or `ghi` skipped), rounded to 2 decimal places. -/
theorem c5_forecast_payload (locationMeta : LocationMeta) (maxHours : ℕ)
    (lat lon : ℚ) (forecasts : List ForecastEntry) (hne : forecasts ≠ []) :
    (build_forecast_payload locationMeta maxHours lat lon
        forecasts).hourly_forecast.length ≤ 48 ∧
    (build_forecast_payload locationMeta maxHours lat lon
        forecasts).daily_summary.length ≤ 7 ∧
    ((build_forecast_payload locationMeta maxHours lat lon
        forecasts).daily_summary.map (·.date)).Sorted (· ≤ ·) ∧
    (∀ entry ∈ (build_forecast_payload locationMeta maxHours lat lon
        forecasts).daily_summary,
      entry.kwh_per_m2 = roundDec 2 (day_total forecasts entry.date)) := by
  refine ⟨?_, ?_, ?_, ?_⟩
  · calc (build_forecast_payload locationMeta maxHours lat lon
          forecasts).hourly_forecast.length
        ≤ ((forecasts.take 48).map _).length := by
          exact List.length_filter_le _ _
      _ = (forecasts.take 48).length := List.length_map _ _
      _ ≤ 48 := by
          rw [List.length_take]
          exact min_le_left _ _
  · show (((List.insertionSort (· ≤ ·)
        ((daily_totals forecasts).map (·.1))).take 7).map _).length ≤ 7
    rw [List.length_map, List.length_take]
    exact min_le_left _ _
  · show (((List.insertionSort (· ≤ ·)
        ((daily_totals forecasts).map (·.1))).take 7).map
          (fun d => (⟨d, roundDec 2 (lookv (daily_totals forecasts) d)⟩ :
            DailySummaryEntry)) |>.map (·.date)).Sorted (· ≤ ·)
    rw [List.map_map]
    have hmap : ((fun x : DailySummaryEntry => x.date) ∘
        (fun d => (⟨d, roundDec 2 (lookv (daily_totals forecasts) d)⟩ :
          DailySummaryEntry))) = id := rfl
    rw [hmap, List.map_id]
    exact List.Pairwise.sublist (List.take_sublist _ _)
      (List.sorted_insertionSort (· ≤ ·) _)
  · intro entry hentry
    show entry.kwh_per_m2 = roundDec 2 (day_total forecasts entry.date)
    simp only [build_forecast_payload, summarize_daily_energy,
      List.mem_map] at hentry
    obtain ⟨d, _, rfl⟩ := hentry
    simp [lookv_daily_totals]

/-- Sample forecast list used by the C5 witness: two samples on different
days, one entry lacking `ghi`. -/
def sampleForecasts : List ForecastEntry :=
  [⟨some "2024-01-02T01:00:00", some 100, none, none⟩,
   ⟨some "2024-01-01T05:00:00", some 200, some 10, none⟩,
   ⟨some "2024-01-01T06:00:00", none, none, none⟩]

/-- C5 witness: the theorem applied to `sampleForecasts`. -/
theorem c5_witness :
    (build_forecast_payload ⟨none, none, none⟩ 336 0 0
        sampleForecasts).hourly_forecast.length ≤ 48 ∧
    (build_forecast_payload ⟨none, none, none⟩ 336 0 0
        sampleForecasts).daily_summary.length ≤ 7 := by
  have h := c5_forecast_payload ⟨none, none, none⟩ 336 0 0 sampleForecasts
    (by simp [sampleForecasts])
  exact ⟨h.1, h.2.1⟩

/-! ### Tabular ingestion

`FileHandler.process_weather_csv` (file_handler.py:104-145) and
`FileHandler.process_production_csv` (file_handler.py:147-191).  The parsed
pandas DataFrame (produced upstream by `_validate_file`/`_read_dataframe`)
is the starting point: a column-name list plus rows of named cells.  A cell
is absent (pandas NaN), numeric, or non-numeric text;
`pd.to_numeric(errors='coerce')` maps text and NaN to NaN.  The lenient
timestamp parser `pd.to_datetime(errors='coerce')` is an external library
routine and is a parameter `parseTs`; `NaT`-detection (`isna().any()`) and
`strftime('%Y-%m-%dT%H:%M:%S')` are concrete. -/

/-- A DataFrame cell. -/
inductive Cell where
  | missing
  | num (q : ℚ)
  | text (s : String)
deriving DecidableEq

/-- A row: named cells (absent name reads as NaN). -/
abbrev Row := List (String × Cell)

def Row.get : Row → String → Cell
  | [], _ => .missing
  | p :: t, c => if p.1 = c then p.2 else Row.get t c

/-- Column assignment `df[c] = v` restricted to one row: drop any existing
binding of `c` and bind `c` to `v`. -/
def Row.set : Row → String → Cell → Row
  | [], c, v => [(c, v)]
  | p :: t, c, v => if p.1 = c then Row.set t c v else p :: Row.set t c v

structure DataFrame where
  columns : List String
  rows : List Row

/-- `pd.to_numeric(x, errors='coerce')` on one cell: NaN for anything
non-numeric. -/
def to_numeric_coerce : Cell → Option ℚ
  | .num q => some q
  | _ => none

/-- A parsed timestamp value. -/
structure DateTime where
  year : ℕ
  month : ℕ
  day : ℕ
  hour : ℕ
  minute : ℕ
  second : ℕ
deriving DecidableEq

/-- Zero-pad a number to `k` digits (as in `strftime`). -/
def padZeros (k n : ℕ) : String :=
  let s := toString n
  String.mk (List.replicate (k - s.length) '0') ++ s

/-- `strftime('%Y-%m-%dT%H:%M:%S')`. -/
def formatIso (t : DateTime) : String :=
  padZeros 4 t.year ++ "-" ++ padZeros 2 t.month ++ "-" ++ padZeros 2 t.day ++
    "T" ++ padZeros 2 t.hour ++ ":" ++ padZeros 2 t.minute ++ ":" ++
    padZeros 2 t.second

/-- `pd.to_datetime(errors='coerce')`, the NaT check, and the `strftime`
rewrite (file_handler.py:122-126 and 164-168): `none` as soon as any row's
timestamp fails to parse, otherwise every row's timestamp cell rewritten to
canonical ISO-8601. -/
def normalize_timestamps (parseTs : Cell → Option DateTime) :
    List Row → Option (List Row)
  | [] => some []
  | r :: rs =>
      match parseTs (Row.get r "timestamp"), normalize_timestamps parseTs rs with
      | some t, some rest =>
          some (Row.set r "timestamp" (.text (formatIso t)) :: rest)
      | _, _ => none

/-- The weather numeric columns (file_handler.py:129-130). -/
def weather_numeric_cols : List String :=
  ["temperature", "humidity", "wind_speed", "cloud_cover",
   "solar_irradiance", "precipitation"]

/-- The production optional numeric columns (file_handler.py:176-179). -/
def production_optional_cols : List String :=
  ["system_capacity_kw", "efficiency"]

/-- A per-column coercion pass: for each name in `cols` that is present in
`columns`, rewrite that column of every row as `f` of the coerced value
(`if col in df.columns: df[col] = ...`). -/
def coerce_columns (f : Cell → Cell) (columns cols : List String)
    (rows : List Row) : List Row :=
  cols.foldl
    (fun acc c =>
      if c ∈ columns then
        acc.map (fun r => Row.set r c (f (Row.get r c)))
      else acc)
    rows

/-- Weather coercion `pd.to_numeric(errors='coerce').fillna(0)`
(file_handler.py:131-133). -/
def fillZero (cell : Cell) : Cell :=
  .num ((to_numeric_coerce cell).getD 0)

/-- Production optional coercion `pd.to_numeric(errors='coerce')` with no
fill (file_handler.py:176-179): non-numeric becomes NaN/null. -/
def fillNull (cell : Cell) : Cell :=
  match to_numeric_coerce cell with
  | some q => .num q
  | none => .missing

/-- `energy_output_kwh` validation (file_handler.py:170-173): coerce each
row's value; fail the whole batch if any is NaN. -/
def validate_energy : List Row → Option (List Row)
  | [] => some []
  | r :: rs =>
      match to_numeric_coerce (Row.get r "energy_output_kwh"),
          validate_energy rs with
      | some q, some rest =>
          some (Row.set r "energy_output_kwh" (.num q) :: rest)
      | _, _ => none

inductive IngestError where
  | schemaError
  | invalidTimestamp
  | nonNumericEnergy
deriving DecidableEq

/-- `FileHandler.process_weather_csv` (file_handler.py:104-145), from the
parsed DataFrame on. -/
def process_weather_csv (parseTs : Cell → Option DateTime) (df : DataFrame) :
    Except IngestError (List Row) :=
  if "timestamp" ∈ df.columns then
    match normalize_timestamps parseTs df.rows with
    | none => .error .invalidTimestamp
    | some rows₁ => .ok (coerce_columns fillZero df.columns weather_numeric_cols rows₁)
  else .error .schemaError

/-- `FileHandler.process_production_csv` (file_handler.py:147-191), from the
parsed DataFrame on. -/
def process_production_csv (parseTs : Cell → Option DateTime) (df : DataFrame) :
    Except IngestError (List Row) :=
  if "timestamp" ∈ df.columns ∧ "energy_output_kwh" ∈ df.columns then
    match normalize_timestamps parseTs df.rows with
    | none => .error .invalidTimestamp
    | some rows₁ =>
        match validate_energy rows₁ with
        | none => .error .nonNumericEnergy
        | some rows₂ =>
            .ok (coerce_columns fillNull df.columns production_optional_cols rows₂)
  else .error .schemaError

/-- `True` exactly on successful ingestion results. -/
def ingestOk : Except IngestError (List Row) → Bool
  | .ok _ => true
  | .error _ => false

theorem Row.get_set_self (r : Row) (c : String) (v : Cell) :
    Row.get (Row.set r c v) c = v := by
  induction r with
  | nil => simp [Row.set, Row.get]
  | cons p t ih =>
      by_cases hp : p.1 = c
      · simpa [Row.set, hp] using ih
      · simpa [Row.set, Row.get, hp] using ih

theorem Row.get_set_ne (r : Row) (c c' : String) (v : Cell) (h : c' ≠ c) :
    Row.get (Row.set r c v) c' = Row.get r c' := by
  have h' : ¬ c = c' := fun hc => h hc.symm
  induction r with
  | nil => simp [Row.set, Row.get, h']
  | cons p t ih =>
      by_cases hp : p.1 = c
      · simpa [Row.set, Row.get, hp, h'] using ih
      · by_cases hq : p.1 = c'
        · simp [Row.set, Row.get, hp, hq, h]
        · simpa [Row.set, Row.get, hp, hq] using ih


theorem normalize_timestamps_fail (parseTs : Cell → Option DateTime)
    (rows : List Row) (r : Row) (hmem : r ∈ rows)
    (hfail : parseTs (Row.get r "timestamp") = none) :
    normalize_timestamps parseTs rows = none := by
  induction rows with
  | nil => cases hmem
  | cons a t ih =>
      rcases List.mem_cons.mp hmem with rfl | hmem'
      · simp [normalize_timestamps, hfail]
      · unfold normalize_timestamps
        rw [ih hmem']
        cases parseTs (Row.get a "timestamp") <;> rfl

theorem normalize_timestamps_ok (parseTs : Cell → Option DateTime)
    (rows : List Row) (hall : ∀ r ∈ rows, ∃ t, parseTs (Row.get r "timestamp") = some t) :
    ∃ out, normalize_timestamps parseTs rows = some out := by
  induction rows with
  | nil => exact ⟨[], rfl⟩
  | cons a t ih =>
      obtain ⟨ta, hta⟩ := hall a (List.mem_cons_self a t)
      obtain ⟨out, hout⟩ := ih (fun r hr => hall r (List.mem_cons_of_mem a hr))
      exact ⟨Row.set a "timestamp" (.text (formatIso ta)) :: out,
        by simp [normalize_timestamps, hta, hout]⟩

theorem normalize_timestamps_length (parseTs : Cell → Option DateTime) :
    ∀ (rows out : List Row), normalize_timestamps parseTs rows = some out →
      out.length = rows.length := by
  intro rows
  induction rows with
  | nil => intro out h; cases h; rfl
  | cons a t ih =>
      intro out h
      unfold normalize_timestamps at h
      cases hp : parseTs (Row.get a "timestamp") with
      | none => rw [hp] at h; cases h
      | some ta =>
          rw [hp] at h
          cases hn : normalize_timestamps parseTs t with
          | none => rw [hn] at h; cases h
          | some rest =>
              rw [hn] at h
              cases h
              simp [ih rest hn]

theorem normalize_timestamps_get (parseTs : Cell → Option DateTime) :
    ∀ (rows out : List Row), normalize_timestamps parseTs rows = some out →
      ∀ (i : ℕ) (r : Row), rows[i]? = some r →
        ∃ t, parseTs (Row.get r "timestamp") = some t ∧
          out[i]? = some (Row.set r "timestamp" (.text (formatIso t))) := by
  intro rows
  induction rows with
  | nil => intro out _ i r hr; simp at hr
  | cons a t ih =>
      intro out h i r hr
      unfold normalize_timestamps at h
      cases hp : parseTs (Row.get a "timestamp") with
      | none => rw [hp] at h; cases h
      | some ta =>
          rw [hp] at h
          cases hn : normalize_timestamps parseTs t with
          | none => rw [hn] at h; cases h
          | some rest =>
              rw [hn] at h
              cases h
              cases i with
              | zero =>
                  simp only [List.getElem?_cons_zero, Option.some.injEq] at hr
                  subst hr
                  exact ⟨ta, hp, by simp⟩
              | succ n =>
                  simp only [List.getElem?_cons_succ] at hr ⊢
                  exact ih rest hn n r hr

theorem validate_energy_fail (rows : List Row) (r : Row) (hmem : r ∈ rows)
    (hfail : to_numeric_coerce (Row.get r "energy_output_kwh") = none) :
    validate_energy rows = none := by
  induction rows with
  | nil => cases hmem
  | cons a t ih =>
      rcases List.mem_cons.mp hmem with rfl | hmem'
      · simp [validate_energy, hfail]
      · unfold validate_energy
        rw [ih hmem']
        cases to_numeric_coerce (Row.get a "energy_output_kwh") <;> rfl

theorem validate_energy_get :
    ∀ (rows out : List Row), validate_energy rows = some out →
      ∀ (i : ℕ) (r : Row), rows[i]? = some r →
        ∃ q, to_numeric_coerce (Row.get r "energy_output_kwh") = some q ∧
          out[i]? = some (Row.set r "energy_output_kwh" (.num q)) := by
  intro rows
  induction rows with
  | nil => intro out _ i r hr; simp at hr
  | cons a t ih =>
      intro out h i r hr
      unfold validate_energy at h
      cases hp : to_numeric_coerce (Row.get a "energy_output_kwh") with
      | none => rw [hp] at h; cases h
      | some qa =>
          rw [hp] at h
          cases hn : validate_energy t with
          | none => rw [hn] at h; cases h
          | some rest =>
              rw [hn] at h
              cases h
              cases i with
              | zero =>
                  simp only [List.getElem?_cons_zero, Option.some.injEq] at hr
                  subst hr
                  exact ⟨qa, hp, by simp⟩
              | succ n =>
                  simp only [List.getElem?_cons_succ] at hr ⊢
                  exact ih rest hn n r hr

theorem validate_energy_length :
    ∀ (rows out : List Row), validate_energy rows = some out →
      out.length = rows.length := by
  intro rows
  induction rows with
  | nil => intro out h; cases h; rfl
  | cons a t ih =>
      intro out h
      unfold validate_energy at h
      cases hp : to_numeric_coerce (Row.get a "energy_output_kwh") with
      | none => rw [hp] at h; cases h
      | some qa =>
          rw [hp] at h
          cases hn : validate_energy t with
          | none => rw [hn] at h; cases h
          | some rest =>
              rw [hn] at h
              cases h
              simp [ih rest hn]

theorem coerce_columns_length (f : Cell → Cell) (columns cols : List String) :
    ∀ rows : List Row, (coerce_columns f columns cols rows).length = rows.length := by
  induction cols with
  | nil => intro rows; rfl
  | cons c' cs ih =>
      intro rows
      simp only [coerce_columns, List.foldl_cons]
      by_cases hmem : c' ∈ columns
      · rw [if_pos hmem]
        simpa [coerce_columns] using ih (rows.map _)
      · rw [if_neg hmem]
        exact ih rows

theorem coerce_columns_get_notMem (f : Cell → Cell) (columns cols : List String)
    (c : String) (hc : c ∉ cols) :
    ∀ (rows : List Row) (i : ℕ),
      (coerce_columns f columns cols rows)[i]?.map (fun r => Row.get r c) =
        rows[i]?.map (fun r => Row.get r c) := by
  induction cols with
  | nil => intro rows i; rfl
  | cons c' cs ih =>
      have hne : c ≠ c' := fun h => hc (h ▸ List.mem_cons_self c' cs)
      have hcs : c ∉ cs := fun h => hc (List.mem_cons_of_mem c' h)
      intro rows i
      simp only [coerce_columns, List.foldl_cons]
      by_cases hmem : c' ∈ columns
      · rw [if_pos hmem]
        have h₁ := ih hcs (rows.map fun r => Row.set r c' (f (Row.get r c'))) i
        simp only [coerce_columns] at h₁
        rw [h₁, List.getElem?_map]
        cases hx : rows[i]? with
        | none => rfl
        | some r => simp [Row.get_set_ne _ _ _ _ hne]
      · rw [if_neg hmem]
        exact ih hcs rows i

theorem coerce_columns_get_mem (f : Cell → Cell) (columns cols : List String)
    (c : String) (hnd : cols.Nodup) (hc : c ∈ cols) (hcol : c ∈ columns) :
    ∀ (rows : List Row) (i : ℕ),
      (coerce_columns f columns cols rows)[i]?.map (fun r => Row.get r c) =
        rows[i]?.map (fun r => f (Row.get r c)) := by
  induction cols with
  | nil => cases hc
  | cons c' cs ih =>
      obtain ⟨hnotmem, hnd'⟩ := List.nodup_cons.mp hnd
      intro rows i
      simp only [coerce_columns, List.foldl_cons]
      rcases List.mem_cons.mp hc with rfl | hcs
      · rw [if_pos hcol]
        have h₁ := coerce_columns_get_notMem f columns cs c hnotmem
          (rows.map fun r => Row.set r c (f (Row.get r c))) i
        simp only [coerce_columns] at h₁
        rw [h₁, List.getElem?_map]
        cases hx : rows[i]? with
        | none => rfl
        | some r => simp [Row.get_set_self]
      · have hne : c ≠ c' := fun h => hnotmem (h ▸ hcs)
        by_cases hmem : c' ∈ columns
        · rw [if_pos hmem]
          have h₁ := ih hnd' hcs (rows.map fun r => Row.set r c' (f (Row.get r c'))) i
          simp only [coerce_columns] at h₁
          rw [h₁, List.getElem?_map]
          cases hx : rows[i]? with
          | none => rfl
          | some r => simp [Row.get_set_ne _ _ _ _ hne]
        · rw [if_neg hmem]
          exact ih hnd' hcs rows i

/-- C3: for both weather and production files, if any single row's timestamp
fails lenient parsing the whole ingestion fails (an error, no records); if
ingestion succeeds, the output has one record per input row and every output
record's timestamp has been rewritten to `strftime('%Y-%m-%dT%H:%M:%S')` of
its parse; concretely, a parse of `2024-01-01 00:00:00` is rewritten to
exactly `"2024-01-01T00:00:00"`. -/
theorem c3_timestamp_normalization :
    (∀ (parseTs : Cell → Option DateTime) (df : DataFrame) (r : Row),
      r ∈ df.rows → parseTs (Row.get r "timestamp") = none →
      ∃ e, process_weather_csv parseTs df = .error e) ∧
    (∀ (parseTs : Cell → Option DateTime) (df : DataFrame) (r : Row),
      r ∈ df.rows → parseTs (Row.get r "timestamp") = none →
      ∃ e, process_production_csv parseTs df = .error e) ∧
    (∀ (parseTs : Cell → Option DateTime) (df : DataFrame) (out : List Row),
      process_weather_csv parseTs df = .ok out →
      out.length = df.rows.length ∧
      ∀ (i : ℕ) (r : Row), df.rows[i]? = some r →
        ∃ t, parseTs (Row.get r "timestamp") = some t ∧
          out[i]?.map (fun r' => Row.get r' "timestamp") =
            some (.text (formatIso t))) ∧
    (∀ (parseTs : Cell → Option DateTime) (df : DataFrame) (out : List Row),
      process_production_csv parseTs df = .ok out →
      out.length = df.rows.length ∧
      ∀ (i : ℕ) (r : Row), df.rows[i]? = some r →
        ∃ t, parseTs (Row.get r "timestamp") = some t ∧
          out[i]?.map (fun r' => Row.get r' "timestamp") =
            some (.text (formatIso t))) ∧
    formatIso ⟨2024, 1, 1, 0, 0, 0⟩ = "2024-01-01T00:00:00" := by
  have hwts : "timestamp" ∉ weather_numeric_cols := by decide
  have hpts : "timestamp" ∉ production_optional_cols := by decide
  refine ⟨?_, ?_, ?_, ?_, by rfl⟩
  · intro parseTs df r hmem hfail
    by_cases hcol : "timestamp" ∈ df.columns
    · exact ⟨.invalidTimestamp, by
        simp [process_weather_csv, hcol,
          normalize_timestamps_fail parseTs df.rows r hmem hfail]⟩
    · exact ⟨.schemaError, by simp [process_weather_csv, hcol]⟩
  · intro parseTs df r hmem hfail
    by_cases hcol : "timestamp" ∈ df.columns ∧ "energy_output_kwh" ∈ df.columns
    · exact ⟨.invalidTimestamp, by
        simp [process_production_csv, hcol,
          normalize_timestamps_fail parseTs df.rows r hmem hfail]⟩
    · exact ⟨.schemaError, by simp [process_production_csv, hcol]⟩
  · intro parseTs df out hout
    unfold process_weather_csv at hout
    by_cases hcol : "timestamp" ∈ df.columns
    · rw [if_pos hcol] at hout
      cases hn : normalize_timestamps parseTs df.rows with
      | none => rw [hn] at hout; cases hout
      | some rows₁ =>
          rw [hn] at hout
          cases hout
          constructor
          · rw [coerce_columns_length]
            exact normalize_timestamps_length parseTs df.rows rows₁ hn
          · intro i r hr
            obtain ⟨t, hparse, hget⟩ :=
              normalize_timestamps_get parseTs df.rows rows₁ hn i r hr
            refine ⟨t, hparse, ?_⟩
            rw [coerce_columns_get_notMem _ _ _ _ hwts, hget]
            simp [Row.get_set_self]
    · rw [if_neg hcol] at hout; cases hout
  · intro parseTs df out hout
    unfold process_production_csv at hout
    by_cases hcol : "timestamp" ∈ df.columns ∧ "energy_output_kwh" ∈ df.columns
    · rw [if_pos hcol] at hout
      cases hn : normalize_timestamps parseTs df.rows with
      | none => rw [hn] at hout; cases hout
      | some rows₁ =>
          rw [hn] at hout
          dsimp only at hout
          cases hv : validate_energy rows₁ with
          | none => rw [hv] at hout; cases hout
          | some rows₂ =>
              rw [hv] at hout
              cases hout
              constructor
              · rw [coerce_columns_length]
                rw [validate_energy_length rows₁ rows₂ hv]
                exact normalize_timestamps_length parseTs df.rows rows₁ hn
              · intro i r hr
                obtain ⟨t, hparse, hget₁⟩ :=
                  normalize_timestamps_get parseTs df.rows rows₁ hn i r hr
                obtain ⟨q, hqparse, hget₂⟩ :=
                  validate_energy_get rows₁ rows₂ hv i _ hget₁
                refine ⟨t, hparse, ?_⟩
                rw [coerce_columns_get_notMem _ _ _ _ hpts, hget₂]
                simp [Row.get_set_ne _ _ _ _ (by decide : "timestamp" ≠ "energy_output_kwh"),
                  Row.get_set_self]
    · rw [if_neg hcol] at hout; cases hout

/-- C2: numeric coercion differs by field importance.  Weather: when all
timestamps parse (and the schema check passes), ingestion succeeds and every
present optional numeric cell is coerced with `fillna(0)` — a non-numeric or
missing value becomes the number 0.  Production: if any row's
`energy_output_kwh` fails to parse as a number, the whole batch fails with an
error (zero records); on success the optional numeric columns are coerced
silently, non-numeric values becoming NaN/null. -/
theorem c2_numeric_coercion :
    (∀ (parseTs : Cell → Option DateTime) (df : DataFrame),
      "timestamp" ∈ df.columns →
      (∀ r ∈ df.rows, ∃ t, parseTs (Row.get r "timestamp") = some t) →
      ∃ out, process_weather_csv parseTs df = .ok out ∧
        out.length = df.rows.length ∧
        (∀ c ∈ weather_numeric_cols, c ∈ df.columns →
          ∀ (i : ℕ) (r : Row), df.rows[i]? = some r →
            out[i]?.map (fun r' => Row.get r' c) =
              some (.num ((to_numeric_coerce (Row.get r c)).getD 0)))) ∧
    (∀ (parseTs : Cell → Option DateTime) (df : DataFrame) (r : Row),
      r ∈ df.rows → to_numeric_coerce (Row.get r "energy_output_kwh") = none →
      ∃ e, process_production_csv parseTs df = .error e) ∧
    (∀ (parseTs : Cell → Option DateTime) (df : DataFrame) (out : List Row),
      process_production_csv parseTs df = .ok out →
      ∀ c ∈ production_optional_cols, c ∈ df.columns →
        ∀ (i : ℕ) (r : Row), df.rows[i]? = some r →
          out[i]?.map (fun r' => Row.get r' c) =
            some (fillNull (Row.get r c))) := by
  refine ⟨?_, ?_, ?_⟩
  · intro parseTs df hcol hall
    obtain ⟨rows₁, hn⟩ := normalize_timestamps_ok parseTs df.rows hall
    refine ⟨coerce_columns fillZero df.columns weather_numeric_cols rows₁,
      by simp [process_weather_csv, hcol, hn], ?_, ?_⟩
    · rw [coerce_columns_length]
      exact normalize_timestamps_length parseTs df.rows rows₁ hn
    · intro c hc hccol i r hr
      have hcts : c ≠ "timestamp" :=
        (by decide : ∀ c ∈ weather_numeric_cols, c ≠ "timestamp") c hc
      obtain ⟨t, hparse, hget⟩ :=
        normalize_timestamps_get parseTs df.rows rows₁ hn i r hr
      rw [coerce_columns_get_mem fillZero df.columns weather_numeric_cols c
        (by decide) hc hccol, hget]
      simp [fillZero, Row.get_set_ne _ _ _ _ hcts]
  · intro parseTs df r hmem hfail
    by_cases hcol : "timestamp" ∈ df.columns ∧ "energy_output_kwh" ∈ df.columns
    · cases hn : normalize_timestamps parseTs df.rows with
      | none =>
          exact ⟨.invalidTimestamp, by simp [process_production_csv, hcol, hn]⟩
      | some rows₁ =>
          obtain ⟨i, hi⟩ := List.mem_iff_getElem?.mp hmem
          obtain ⟨t, hparse, hget⟩ :=
            normalize_timestamps_get parseTs df.rows rows₁ hn i r hi
          have hmem₁ : Row.set r "timestamp" (.text (formatIso t)) ∈ rows₁ :=
            List.mem_iff_getElem?.mpr ⟨i, hget⟩
          have hfail₁ : to_numeric_coerce
              (Row.get (Row.set r "timestamp" (.text (formatIso t)))
                "energy_output_kwh") = none := by
            rw [Row.get_set_ne _ _ _ _ (by decide : "energy_output_kwh" ≠ "timestamp")]
            exact hfail
          exact ⟨.nonNumericEnergy, by
            simp [process_production_csv, hcol, hn,
              validate_energy_fail rows₁ _ hmem₁ hfail₁]⟩
    · exact ⟨.schemaError, by simp [process_production_csv, hcol]⟩
  · intro parseTs df out hout c hc hccol i r hr
    have hcts : c ≠ "timestamp" :=
      (by decide : ∀ c ∈ production_optional_cols, c ≠ "timestamp") c hc
    have hcen : c ≠ "energy_output_kwh" :=
      (by decide : ∀ c ∈ production_optional_cols, c ≠ "energy_output_kwh") c hc
    unfold process_production_csv at hout
    by_cases hcol : "timestamp" ∈ df.columns ∧ "energy_output_kwh" ∈ df.columns
    · rw [if_pos hcol] at hout
      cases hn : normalize_timestamps parseTs df.rows with
      | none => rw [hn] at hout; cases hout
      | some rows₁ =>
          rw [hn] at hout
          dsimp only at hout
          cases hv : validate_energy rows₁ with
          | none => rw [hv] at hout; cases hout
          | some rows₂ =>
              rw [hv] at hout
              cases hout
              obtain ⟨t, hparse, hget₁⟩ :=
                normalize_timestamps_get parseTs df.rows rows₁ hn i r hr
              obtain ⟨q, hqparse, hget₂⟩ :=
                validate_energy_get rows₁ rows₂ hv i _ hget₁
              rw [coerce_columns_get_mem fillNull df.columns
                production_optional_cols c (by decide) hc hccol, hget₂]
              simp [Row.get_set_ne _ _ _ _ hcen, Row.get_set_ne _ _ _ _ hcts]
    · rw [if_neg hcol] at hout; cases hout

/-- Concrete lenient parser used by the C2/C3 witnesses: recognizes the one
timestamp format the witnesses feed it. -/
def parseTsW : Cell → Option DateTime
  | .text "2024-01-01 00:00:00" => some ⟨2024, 1, 1, 0, 0, 0⟩
  | _ => none

/-- Weather DataFrame for the C2 witness: a valid timestamp next to a
non-numeric `temperature` cell. -/
def dfWeatherW : DataFrame :=
  { columns := ["timestamp", "temperature"],
    rows := [[("timestamp", .text "2024-01-01 00:00:00"),
              ("temperature", .text "not-a-number")]] }

/-- Production DataFrame for the C2 witness: a valid timestamp but a
non-numeric `energy_output_kwh` cell. -/
def dfProdW : DataFrame :=
  { columns := ["timestamp", "energy_output_kwh"],
    rows := [[("timestamp", .text "2024-01-01 00:00:00"),
              ("energy_output_kwh", .text "oops")]] }

/-- C2 witness: the weather file with a non-numeric temperature ingests
successfully while the production file with a non-numeric energy value
fails. -/
theorem c2_witness :
    ingestOk (process_weather_csv parseTsW dfWeatherW) = true ∧
    ingestOk (process_production_csv parseTsW dfProdW) = false := by
  constructor
  · obtain ⟨out, hout, -, -⟩ := c2_numeric_coercion.1 parseTsW dfWeatherW
      (by decide)
      (by
        intro r hr
        simp only [dfWeatherW, List.mem_singleton] at hr
        subst hr
        exact ⟨⟨2024, 1, 1, 0, 0, 0⟩, rfl⟩)
    rw [hout]
    rfl
  · obtain ⟨e, he⟩ := c2_numeric_coercion.2.1 parseTsW dfProdW
      (dfProdW.rows.headD [])
      (by simp [dfProdW])
      (by rfl)
    rw [he]
    rfl

/-- Weather DataFrame for the C3 witness: the second row's timestamp is
unparseable. -/
def dfBadTsW : DataFrame :=
  { columns := ["timestamp"],
    rows := [[("timestamp", .text "2024-01-01 00:00:00")],
             [("timestamp", .text "yesterday-ish")]] }

/-- C3 witness: one bad timestamp fails the whole weather file, and
`formatIso` of the round-trip parse is exactly `"2024-01-01T00:00:00"`. -/
theorem c3_witness :
    ingestOk (process_weather_csv parseTsW dfBadTsW) = false ∧
    formatIso ⟨2024, 1, 1, 0, 0, 0⟩ = "2024-01-01T00:00:00" := by
  constructor
  · obtain ⟨e, he⟩ := c3_timestamp_normalization.1 parseTsW dfBadTsW
      (dfBadTsW.rows.getD 1 [])
      (by simp [dfBadTsW])
      (by rfl)
    rw [he]
    rfl
  · exact c3_timestamp_normalization.2.2.2.2

/-! ### Training pipeline

`ModelTrainer.train_model` (trainer.py:82-158) and
`ModelTrainer._fetch_training_data` (trainer.py:25-80).  The
`model_versions` table is a row list; the supabase `update ... eq(...)` is a
map over matching rows and `insert` appends.  Rows fetched from the store
hold numeric-or-null feature cells (the ingestion invariant of §3), so the
`pd.to_numeric(errors='coerce')` inside the imputation line is the identity
and `merged[col].median()` — evaluated on the pre-assignment column — equals
the median of the coerced column. -/

/-- A `model_versions` row (the fields the activation transition touches). -/
structure ModelVersionRow where
  version_name : String
  model_type : String
  is_active : Bool
deriving DecidableEq

/-- `supabase.table('model_versions').update({'is_active': False})
.eq('model_type', mt)` (trainer.py:132). -/
def deactivate_models (store : List ModelVersionRow) (mt : String) :
    List ModelVersionRow :=
  store.map fun r => if r.model_type = mt then { r with is_active := false } else r

/-- The two-step activation transition of `train_model` (trainer.py:129-144):
deactivate every row of `mt`, then insert the fresh row with
`is_active = True`. -/
def promote_model (store : List ModelVersionRow) (mt vn : String) :
    List ModelVersionRow :=
  deactivate_models store mt ++ [⟨vn, mt, true⟩]

/-- The row is an active row of model type `mt`. -/
def isActiveOf (mt : String) (r : ModelVersionRow) : Bool :=
  decide (r.model_type = mt) && r.is_active

/-- C4: from any starting state of the `model_versions` store, the
deactivate-then-insert transition leaves exactly one `is_active = true` row
for the trained model type. -/
theorem c4_single_active_model (store : List ModelVersionRow) (mt vn : String) :
    (promote_model store mt vn).countP (isActiveOf mt) = 1 := by
  unfold promote_model
  rw [List.countP_append]
  have hzero : (deactivate_models store mt).countP (isActiveOf mt) = 0 := by
    rw [List.countP_eq_zero]
    intro r hr
    unfold deactivate_models at hr
    obtain ⟨r₀, -, rfl⟩ := List.mem_map.mp hr
    by_cases hmt : r₀.model_type = mt
    · simp [isActiveOf, hmt]
    · simp [isActiveOf, hmt]
  rw [hzero]
  simp [isActiveOf]

/-! ### Training data preparation (C7) -/

/-- A `weather_data` row as fetched for training: a timestamp plus the six
feature columns, each numeric or null. -/
structure WRow where
  ts : DateTime
  temperature : Option ℚ
  humidity : Option ℚ
  wind_speed : Option ℚ
  cloud_cover : Option ℚ
  solar_irradiance : Option ℚ
  precipitation : Option ℚ

/-- A `production_data` row as fetched for training. -/
structure PRow where
  ts : DateTime
  energy_output_kwh : ℚ

/-- One row of the merged training set. -/
structure TrainRow where
  temperature : Option ℚ
  humidity : Option ℚ
  wind_speed : Option ℚ
  cloud_cover : Option ℚ
  solar_irradiance : Option ℚ
  precipitation : Option ℚ
  energy_output_kwh : ℚ

/-- `dt.floor('H')` (trainer.py:48-49). -/
def floor_hour (t : DateTime) : DateTime :=
  ⟨t.year, t.month, t.day, t.hour, 0, 0⟩

def mergeRow (w : WRow) (p : PRow) : TrainRow :=
  ⟨w.temperature, w.humidity, w.wind_speed, w.cloud_cover,
   w.solar_irradiance, w.precipitation, p.energy_output_kwh⟩

/-- `pd.merge(weather_df, production_df, on='timestamp_hour', how='inner')`
(trainer.py:51-57): every weather/production pair agreeing on the truncated
hour, in left-then-right order. -/
def merge_on_hour (ws : List WRow) (ps : List PRow) : List TrainRow :=
  ws.flatMap fun w =>
    (ps.filter fun p => decide (floor_hour p.ts = floor_hour w.ts)).map (mergeRow w)

/-- The six feature columns (trainer.py:63-66). -/
inductive FeatureCol where
  | temperature
  | humidity
  | wind_speed
  | cloud_cover
  | solar_irradiance
  | precipitation
deriving DecidableEq

def feature_cols : List FeatureCol :=
  [.temperature, .humidity, .wind_speed, .cloud_cover,
   .solar_irradiance, .precipitation]

def getF : FeatureCol → TrainRow → Option ℚ
  | .temperature, r => r.temperature
  | .humidity, r => r.humidity
  | .wind_speed, r => r.wind_speed
  | .cloud_cover, r => r.cloud_cover
  | .solar_irradiance, r => r.solar_irradiance
  | .precipitation, r => r.precipitation

def setF : FeatureCol → Option ℚ → TrainRow → TrainRow
  | .temperature, v, r => { r with temperature := v }
  | .humidity, v, r => { r with humidity := v }
  | .wind_speed, v, r => { r with wind_speed := v }
  | .cloud_cover, v, r => { r with cloud_cover := v }
  | .solar_irradiance, v, r => { r with solar_irradiance := v }
  | .precipitation, v, r => { r with precipitation := v }

/-- `Series.median()` with the default `skipna=True`: sort the non-null
values; middle element, or the mean of the two middle elements; NaN (none)
for an empty column. -/
def median (xs : List ℚ) : Option ℚ :=
  let s := List.insertionSort (· ≤ ·) xs
  if s.length = 0 then none
  else if s.length % 2 = 1 then some (s.getD (s.length / 2) 0)
  else some ((s.getD (s.length / 2 - 1) 0 + s.getD (s.length / 2) 0) / 2)

/-- The median of one feature column of the joined training set, excluding
nulls. -/
def col_median (rows : List TrainRow) (c : FeatureCol) : Option ℚ :=
  median (rows.filterMap (getF c))

/-- `fillna(m)` on one cell. -/
def fillCell (v m : Option ℚ) : Option ℚ :=
  match v with
  | some q => some q
  | none => m

/-- `merged[col] = pd.to_numeric(merged[col], errors='coerce')
.fillna(merged[col].median())` (trainer.py:69-71) for one column. -/
def fill_column (rows : List TrainRow) (c : FeatureCol) : List TrainRow :=
  let m := col_median rows c
  rows.map fun r => setF c (fillCell (getF c r) m) r

/-- The imputation loop over the six feature columns (trainer.py:69-71). -/
def fill_missing (rows : List TrainRow) : List TrainRow :=
  feature_cols.foldl fill_column rows

/-- `_fetch_training_data` (trainer.py:25-80): `None` when either input
table or the inner join is empty, otherwise the imputed joined training
set. -/
def fetch_training_data (ws : List WRow) (ps : List PRow) :
    Option (List TrainRow) :=
  if ws.isEmpty ∨ ps.isEmpty then none
  else
    let merged := merge_on_hour ws ps
    if merged.isEmpty then none
    else some (fill_missing merged)

theorem getF_setF_self (c : FeatureCol) (v : Option ℚ) (r : TrainRow) :
    getF c (setF c v r) = v := by
  cases c <;> rfl

theorem getF_setF_ne (c c' : FeatureCol) (v : Option ℚ) (r : TrainRow)
    (h : c ≠ c') : getF c (setF c' v r) = getF c r := by
  cases c <;> cases c' <;> first
    | rfl
    | exact absurd rfl h

theorem fill_foldl_get_notMem (cols : List FeatureCol) (c : FeatureCol)
    (hc : c ∉ cols) :
    ∀ (rows : List TrainRow) (i : ℕ),
      (cols.foldl fill_column rows)[i]?.map (getF c) =
        rows[i]?.map (getF c) := by
  induction cols with
  | nil => intro rows i; rfl
  | cons c' cs ih =>
      have hne : c ≠ c' := fun h => hc (h ▸ List.mem_cons_self c' cs)
      have hcs : c ∉ cs := fun h => hc (List.mem_cons_of_mem c' h)
      intro rows i
      rw [List.foldl_cons, ih hcs]
      unfold fill_column
      rw [List.getElem?_map]
      cases hx : rows[i]? with
      | none => rfl
      | some r => simp [getF_setF_ne _ _ _ _ hne]

theorem col_median_fill_ne (rows : List TrainRow) (c c' : FeatureCol)
    (h : c ≠ c') : col_median (fill_column rows c') c = col_median rows c := by
  unfold col_median fill_column
  rw [List.filterMap_map]
  have hfun : (getF c ∘ fun r =>
      setF c' (fillCell (getF c' r) (col_median rows c')) r) = getF c :=
    funext fun r => getF_setF_ne _ _ _ _ h
  rw [hfun]

theorem fill_foldl_get_mem (cols : List FeatureCol) (c : FeatureCol)
    (hnd : cols.Nodup) (hc : c ∈ cols) :
    ∀ (rows : List TrainRow) (i : ℕ),
      (cols.foldl fill_column rows)[i]?.map (getF c) =
        rows[i]?.map (fun r => fillCell (getF c r) (col_median rows c)) := by
  induction cols with
  | nil => cases hc
  | cons c' cs ih =>
      obtain ⟨hnotmem, hnd'⟩ := List.nodup_cons.mp hnd
      intro rows i
      rw [List.foldl_cons]
      rcases List.mem_cons.mp hc with rfl | hcs
      · rw [fill_foldl_get_notMem cs c hnotmem]
        unfold fill_column
        rw [List.getElem?_map]
        cases hx : rows[i]? with
        | none => rfl
        | some r => simp [getF_setF_self]
      · have hne : c ≠ c' := fun h => hnotmem (h ▸ hcs)
        rw [ih hnd' hcs, col_median_fill_ne rows c c' hne]
        unfold fill_column
        rw [List.getElem?_map]
        cases hx : rows[i]? with
        | none => rfl
        | some r => simp [getF_setF_ne _ _ _ _ hne]

/-- C7: whenever training data preparation succeeds, every feature cell of
the prepared set equals the joined cell when it was non-null, and otherwise
the median (excluding nulls) of that column of the *joined* training set —
the inner merge of weather and production on the truncated hour — not of the
raw inputs. -/
theorem c7_median_imputation (ws : List WRow) (ps : List PRow)
    (out : List TrainRow) (hout : fetch_training_data ws ps = some out) :
    ∀ (c : FeatureCol) (i : ℕ),
      out[i]?.map (getF c) =
        (merge_on_hour ws ps)[i]?.map
          (fun r => fillCell (getF c r) (col_median (merge_on_hour ws ps) c)) := by
  intro c i
  unfold fetch_training_data at hout
  by_cases h₁ : ws.isEmpty ∨ ps.isEmpty
  · rw [if_pos h₁] at hout; cases hout
  · rw [if_neg h₁] at hout
    by_cases h₂ : (merge_on_hour ws ps).isEmpty
    · simp only [h₂, if_true] at hout; cases hout
    · simp only [h₂, if_false] at hout
      cases hout
      exact fill_foldl_get_mem feature_cols c (by decide) (by cases c <;> decide)
        (merge_on_hour ws ps) i

/-- Training inputs for the C7 witness: one weather row with a null
`temperature` joined to one production row in the same hour. -/
def wsW : List WRow :=
  [⟨⟨2024, 1, 1, 10, 15, 0⟩, none, some 40, some 3, some 20, some 600, some 0⟩,
   ⟨⟨2024, 1, 1, 11, 0, 0⟩, some 22, some 45, some 4, some 25, some 650, some 0⟩]

def psW : List PRow :=
  [⟨⟨2024, 1, 1, 10, 45, 0⟩, 5⟩, ⟨⟨2024, 1, 1, 11, 30, 0⟩, 6⟩]

/-- C7 witness: the theorem applied to `wsW`/`psW` at the `temperature`
column and row 0. -/
theorem c7_witness :
    (fill_missing (merge_on_hour wsW psW))[0]?.map (getF .temperature) =
      (merge_on_hour wsW psW)[0]?.map
        (fun r => fillCell (getF .temperature r)
          (col_median (merge_on_hour wsW psW) .temperature)) := by
  exact c7_median_imputation wsW psW (fill_missing (merge_on_hour wsW psW))
    (by rfl) .temperature 0

/-! ### Prediction service

`SolarEnergyPredictor` (predictor.py:13-134).  `_load_model` either loads an
active model (setting `model`, `model_version`, `model_loaded = True`) or
leaves the heuristic state (`model = None`, `model_version = None`,
`model_loaded = False`) — on a missing row, a missing file, or any
exception.  The weather-feature lookup `_get_weather_features` is a database
call and is a parameter; a loaded sklearn model's `predict` is a function on
the feature vector. -/

/-- The six-element feature vector returned by `_get_weather_features`
(predictor.py:46-69), indices 0-5. -/
structure FeatureVec where
  temperature : ℚ
  humidity : ℚ
  wind_speed : ℚ
  cloud_cover : ℚ
  solar_irradiance : ℚ
  precipitation : ℚ

/-- The fixed default vector `[20.0, 50.0, 5.0, 30.0, 500.0, 0.0]`
(predictor.py:69). -/
def default_features : FeatureVec := ⟨20, 50, 5, 30, 500, 0⟩

structure PredictorState where
  model : Option (FeatureVec → ℚ)
  model_loaded : Bool
  model_version : Option String

/-- The two reachable outcomes of `_load_model` (predictor.py:24-44):
heuristic mode, or a loaded model with its version name. -/
def mkPredictor : Option ((FeatureVec → ℚ) × String) → PredictorState
  | none => ⟨none, false, none⟩
  | some (m, vn) => ⟨some m, true, some vn⟩

/-- One output record of `predict_hourly`/`predict_daily`
(predictor.py:89-99, 122-132), restricted to the fields the claim is
about. -/
structure PredictionRecord where
  predicted_output_kwh : ℚ
  confidence_score : ℚ
  model_version : Option String

/-- The per-hour inference (predictor.py:82-87): the loaded model's raw
output when `self.model_loaded and self.model`, otherwise the clamped
heuristic `max(0, solar_irradiance * 0.5)`. -/
def predict_one (st : PredictorState) (f : FeatureVec) : ℚ :=
  match st.model, st.model_loaded with
  | some m, true => m f
  | _, _ => max 0 (f.solar_irradiance * (1/2))

/-- `predict_hourly` (predictor.py:71-101); `getFeatures i` is the feature
vector fetched for hour offset `i`. -/
def predict_hourly (st : PredictorState) (getFeatures : ℕ → FeatureVec)
    (hours : ℕ) : List PredictionRecord :=
  (List.range hours).map fun i =>
    { predicted_output_kwh := predict_one st (getFeatures i),
      confidence_score := if st.model_loaded then 17/20 else 1/2,
      model_version := st.model_version }

/-- The per-day inference of `predict_daily` (predictor.py:115-120): the
model's raw hourly output times 24, or `max(0, solar_irradiance * 0.5 * 24)`
under the heuristic. -/
def predict_one_daily (st : PredictorState) (f : FeatureVec) : ℚ :=
  match st.model, st.model_loaded with
  | some m, true => m f * 24
  | _, _ => max 0 (f.solar_irradiance * (1/2) * 24)

/-- `predict_daily` (predictor.py:103-134). -/
def predict_daily (st : PredictorState) (getFeatures : ℕ → FeatureVec)
    (days : ℕ) : List PredictionRecord :=
  (List.range days).map fun i =>
    { predicted_output_kwh := predict_one_daily st (getFeatures i),
      confidence_score := if st.model_loaded then 17/20 else 1/2,
      model_version := st.model_version }

/-- C10: in heuristic mode (no loaded model) every hourly and daily record
has a non-negative `predicted_output_kwh`, `confidence_score` exactly 0.5
and a null `model_version`; with a loaded model the raw model output is used
without a non-negativity clamp, so a model predicting a negative value
yields a negative `predicted_output_kwh`. -/
theorem c10_predictor_modes :
    (∀ (getFeatures : ℕ → FeatureVec) (hours : ℕ),
      ∀ rec ∈ predict_hourly (mkPredictor none) getFeatures hours,
        0 ≤ rec.predicted_output_kwh ∧ rec.confidence_score = 1/2 ∧
          rec.model_version = none) ∧
    (∀ (getFeatures : ℕ → FeatureVec) (days : ℕ),
      ∀ rec ∈ predict_daily (mkPredictor none) getFeatures days,
        0 ≤ rec.predicted_output_kwh ∧ rec.confidence_score = 1/2 ∧
          rec.model_version = none) ∧
    (∃ (m : FeatureVec → ℚ) (vn : String) (getFeatures : ℕ → FeatureVec),
      ∀ rec ∈ predict_hourly (mkPredictor (some (m, vn))) getFeatures 1,
        rec.predicted_output_kwh < 0) := by
  refine ⟨?_, ?_, ?_⟩
  · intro getFeatures hours rec hrec
    obtain ⟨i, -, rfl⟩ := List.mem_map.mp hrec
    exact ⟨le_max_left _ _, rfl, rfl⟩
  · intro getFeatures days rec hrec
    obtain ⟨i, -, rfl⟩ := List.mem_map.mp hrec
    exact ⟨le_max_left _ _, rfl, rfl⟩
  · refine ⟨fun _ => -1, "v1", fun _ => default_features, ?_⟩
    intro rec hrec
    obtain ⟨i, -, rfl⟩ := List.mem_map.mp hrec
    norm_num [predict_one, mkPredictor]

/-- C10 witness: the heuristic-mode guarantees applied to the first record
of a one-hour prediction with the default feature vector. -/
theorem c10_witness :
    0 ≤ ((predict_hourly (mkPredictor none) (fun _ => default_features)
        1).headD ⟨0, 0, none⟩).predicted_output_kwh ∧
    ((predict_hourly (mkPredictor none) (fun _ => default_features)
        1).headD ⟨0, 0, none⟩).confidence_score = 1/2 := by
  have h := c10_predictor_modes.1 (fun _ => default_features) 1
    ((predict_hourly (mkPredictor none) (fun _ => default_features)
        1).headD ⟨0, 0, none⟩)
    (by simp [predict_hourly, List.range_succ])
  exact ⟨h.1, h.2.1⟩

end SolarPredictor
